import Mathlib

/-!
Verification development for the Sefaria MCP tool-invocation gateway
(`src/sefaria_mcp/tools.py` and `src/sefaria_mcp/main.py`).

The gateway code is embedded shallowly: Python values that can flow through a
tool handler are modelled by `PyValue`; `json.dumps(..., ensure_ascii=False)`
is modelled by `jsonDumps` (returning `Option.none` where the Python call
raises `TypeError`); each registered tool wrapper is a Lean function from the
logging context, the tool arguments, and the outcome of the awaited
underlying operation to the updated context and the transport outcome
(`Except` models a propagating Python exception).
-/

/-- Runtime values a Python tool handler can return or log. `obj` stands for
an arbitrary non-JSON-serializable Python object whose `repr`/`str` is the
carried string. -/
inductive PyValue where
  | str (s : String)
  | int (n : Int)
  | bool (b : Bool)
  | none
  | bytes (bs : List Nat)
  | obj (r : String)
  | list (xs : List PyValue)
  | dict (kvs : List (String × PyValue))

/-- True exactly on the `str` constructor (`isinstance(x, str)`). -/
def PyValue.isStr : PyValue → Bool
  | PyValue.str _ => true
  | _ => false

/-- True exactly on the `bytes` constructor (`isinstance(x, (bytes, bytearray))`). -/
def PyValue.isBytes : PyValue → Bool
  | PyValue.bytes _ => true
  | _ => false

/-- Lower-case hexadecimal digit. -/
def hexDigit (n : Nat) : Char :=
  if n < 10 then Char.ofNat (48 + n) else Char.ofNat (87 + n)

/-- Two lower-case hexadecimal digits of a byte. -/
def hex2 (n : Nat) : String :=
  String.mk [hexDigit ((n / 16) % 16), hexDigit (n % 16)]

/-- JSON escaping of one character, as `json.dumps` with `ensure_ascii=False`
performs it: only the quote, the backslash and control characters are
escaped; every other character (Hebrew included) is kept verbatim. -/
def jsonEscapeChar (c : Char) : String :=
  if c = '"' then "\\\""
  else if c = '\\' then "\\\\"
  else if c = '\n' then "\\n"
  else if c = '\t' then "\\t"
  else if c = '\r' then "\\r"
  else if c.toNat < 32 then "\\u00" ++ hex2 c.toNat
  else String.singleton c

/-- A JSON string literal for `s`. -/
def jsonQuote (s : String) : String :=
  "\"" ++ String.join (s.data.map jsonEscapeChar) ++ "\""

mutual

/-- Embeds `json.dumps(v, ensure_ascii=False)` with the default separators
`", "` and `": "`. `Option.none` models the `TypeError` the Python call
raises on a value that is not JSON serializable (`bytes` or an arbitrary
object, also nested inside a container). -/
def jsonDumps : PyValue → Option String
  | PyValue.str s => some (jsonQuote s)
  | PyValue.int n => some (toString n)
  | PyValue.bool b => some (if b then "true" else "false")
  | PyValue.none => some "null"
  | PyValue.bytes _ => Option.none
  | PyValue.obj _ => Option.none
  | PyValue.list xs =>
    match jsonDumpsList xs with
    | some parts => some ("[" ++ String.intercalate ", " parts ++ "]")
    | Option.none => Option.none
  | PyValue.dict kvs =>
    match jsonDumpsDict kvs with
    | some parts => some ("\x7b" ++ String.intercalate ", " parts ++ "\x7d")
    | Option.none => Option.none

/-- Serialization of the elements of a Python list. -/
def jsonDumpsList : List PyValue → Option (List String)
  | [] => some []
  | v :: vs =>
    match jsonDumps v, jsonDumpsList vs with
    | some s, some ss => some (s :: ss)
    | _, _ => Option.none

/-- Serialization of the entries of a Python dict (string keys). -/
def jsonDumpsDict : List (String × PyValue) → Option (List String)
  | [] => some []
  | (k, v) :: kvs =>
    match jsonDumps v, jsonDumpsDict kvs with
    | some s, some ss => some ((jsonQuote k ++ ": " ++ s) :: ss)
    | _, _ => Option.none

end

mutual

/-- Embeds Python `repr`. String escaping inside `repr` of strings and bytes
is simplified (quotes are always the single-quote character, printable bytes
are not shortened); no theorem below depends on the exact rendering. -/
def pyRepr : PyValue → String
  | PyValue.str s => "\x27" ++ s ++ "\x27"
  | PyValue.int n => toString n
  | PyValue.bool b => if b then "True" else "False"
  | PyValue.none => "None"
  | PyValue.bytes bs => "b\x27" ++ String.join (bs.map (fun b => "\\x" ++ hex2 b)) ++ "\x27"
  | PyValue.obj r => r
  | PyValue.list xs => "[" ++ String.intercalate ", " (pyReprList xs) ++ "]"
  | PyValue.dict kvs => "\x7b" ++ String.intercalate ", " (pyReprDict kvs) ++ "\x7d"

/-- Representations of the elements of a Python list. -/
def pyReprList : List PyValue → List String
  | [] => []
  | v :: vs => pyRepr v :: pyReprList vs

/-- Representations of the entries of a Python dict. -/
def pyReprDict : List (String × PyValue) → List String
  | [] => []
  | (k, v) :: kvs => ("\x27" ++ k ++ "\x27: " ++ pyRepr v) :: pyReprDict kvs

end

/-- Embeds Python `str(v)`: the identity on strings, `repr` on every other
value (containers render their elements with `repr`). -/
def pyStr : PyValue → String
  | PyValue.str s => s
  | v => pyRepr v

/-- Embeds `_payload_size` (tools.py lines 31-40): raw length for
`bytes`/`bytearray`, UTF-8 byte length for `str`, byte length of the
non-ASCII-preserving JSON encoding when `json.dumps` succeeds, and the byte
length of `str(payload)` when it raises. The Lean function is total, which
embeds the requirement that the computation never raises. -/
def _payload_size : PyValue → Nat
  | PyValue.bytes bs => bs.length
  | PyValue.str s => s.utf8ByteSize
  | v =>
    match jsonDumps v with
    | some s => s.utf8ByteSize
    | Option.none => (pyStr v).utf8ByteSize

/-- A structured log entry emitted through `ctx.log`: the pre-dispatch
"called with ..." entry and the post-dispatch "response size: N bytes"
entry. -/
inductive LogEntry where
  | called (tool : String) (args : String)
  | responseSize (tool : String) (bytes : Nat)
deriving DecidableEq

/-- The logging context handed to every tool (`ctx`); it accumulates the
structured log entries in emission order. -/
structure Ctx where
  logs : List LogEntry
deriving DecidableEq

/-- Embeds `ctx.log(...)`. -/
def Ctx.log (c : Ctx) (e : LogEntry) : Ctx := ⟨c.logs ++ [e]⟩

/-- The `repr` of a string argument as the f-string `!r` conversion shows it. -/
def argRepr (s : String) : String := "\x27" ++ s ++ "\x27"

/-- The `repr` of an optional string argument. -/
def optStrRepr : Option String → String
  | some s => argRepr s
  | Option.none => "None"

/-- The `repr` of an optional integer argument. -/
def optIntRepr : Option Int → String
  | some n => toString n
  | Option.none => "None"

/-- The `repr` of a list-of-strings argument. -/
def strListRepr (xs : List String) : String :=
  "[" ++ String.intercalate ", " (xs.map argRepr) ++ "]"

/-- The `repr` of an optional list-of-strings argument. -/
def optStrListRepr : Option (List String) → String
  | some xs => strListRepr xs
  | Option.none => "None"

/-- The `repr` of a boolean argument. -/
def boolRepr (b : Bool) : String := if b then "True" else "False"

/-- The `repr` of an optional dict argument (carried as a `PyValue`). -/
def optDictRepr : Option PyValue → String
  | some v => pyRepr v
  | Option.none => "None"

/-- The message of the `TypeError` that `json.dumps` raises on a value that
is not JSON serializable. -/
def typeErrorMsg : String := "TypeError: Object is not JSON serializable"

/-- Embeds the return expression
`result if isinstance(result, str) else json.dumps(result, ensure_ascii=False)`
shared verbatim by text_search, search_in_book, search_in_dictionaries and
clarify_search_path_filter. A failing `json.dumps` raises out of the
wrapper. -/
def ensureString : PyValue → Except String PyValue
  | PyValue.str s => Except.ok (PyValue.str s)
  | v =>
    match jsonDumps v with
    | some s => Except.ok (PyValue.str s)
    | Option.none => Except.error typeErrorMsg

/-- Embeds the return expression `json.dumps(result, ensure_ascii=False)` of
get_manuscript_image: the result is always re-encoded, and a failing
`json.dumps` raises out of the wrapper. -/
def jsonDumpsOrRaise (v : PyValue) : Except String PyValue :=
  match jsonDumps v with
  | some s => Except.ok (PyValue.str s)
  | Option.none => Except.error typeErrorMsg

/-- Embeds the tool wrapper `get_text` (tools.py lines 46-61): pre-dispatch
log, await of `_get_text` (its outcome is the `op` argument), post-dispatch
response-size log, and the result returned unchanged. An exception from the
awaited call propagates before the post-dispatch log line runs. -/
def get_text (ctx : Ctx) (reference : String) (version_language : Option String)
    (op : Except String PyValue) : Ctx × Except String PyValue :=
  let ctx := ctx.log (LogEntry.called "get_text"
    ("reference=" ++ argRepr reference ++ ", version_language=" ++ optStrRepr version_language))
  match op with
  | Except.error e => (ctx, Except.error e)
  | Except.ok result =>
    let ctx := ctx.log (LogEntry.responseSize "get_text" (_payload_size result))
    (ctx, Except.ok result)

/-- Embeds the tool wrapper `text_search` (tools.py lines 63-91); the return
statement coerces a non-string result through `json.dumps`. -/
def text_search (ctx : Ctx) (query : String) (filters : Option (List String))
    (size : Int) (op : Except String PyValue) : Ctx × Except String PyValue :=
  let ctx := ctx.log (LogEntry.called "text_search"
    ("query=" ++ argRepr query ++ ", filters=" ++ optStrListRepr filters ++ ", size=" ++ toString size))
  match op with
  | Except.error e => (ctx, Except.error e)
  | Except.ok result =>
    let ctx := ctx.log (LogEntry.responseSize "text_search" (_payload_size result))
    (ctx, ensureString result)

/-- Embeds the tool wrapper `get_current_calendar` (tools.py lines 93-99). -/
def get_current_calendar (ctx : Ctx) (op : Except String PyValue) :
    Ctx × Except String PyValue :=
  let ctx := ctx.log (LogEntry.called "get_current_calendar" "")
  match op with
  | Except.error e => (ctx, Except.error e)
  | Except.ok result =>
    let ctx := ctx.log (LogEntry.responseSize "get_current_calendar" (_payload_size result))
    (ctx, Except.ok result)

/-- Embeds the tool wrapper `english_semantic_search` (tools.py lines 101-129). -/
def english_semantic_search (ctx : Ctx) (query : String) (filters : Option PyValue)
    (op : Except String PyValue) : Ctx × Except String PyValue :=
  let ctx := ctx.log (LogEntry.called "english_semantic_search"
    ("query=" ++ argRepr query ++ ", filters=" ++ optDictRepr filters))
  match op with
  | Except.error e => (ctx, Except.error e)
  | Except.ok result =>
    let ctx := ctx.log (LogEntry.responseSize "english_semantic_search" (_payload_size result))
    (ctx, Except.ok result)

/-- Embeds the tool wrapper `get_links_between_texts` (tools.py lines 131-146). -/
def get_links_between_texts (ctx : Ctx) (reference : String) (with_text : String)
    (op : Except String PyValue) : Ctx × Except String PyValue :=
  let ctx := ctx.log (LogEntry.called "get_links_between_texts"
    ("reference=" ++ argRepr reference ++ ", with_text=" ++ argRepr with_text))
  match op with
  | Except.error e => (ctx, Except.error e)
  | Except.ok result =>
    let ctx := ctx.log (LogEntry.responseSize "get_links_between_texts" (_payload_size result))
    (ctx, Except.ok result)

/-- Embeds the tool wrapper `search_in_book` (tools.py lines 148-176); the
return statement coerces a non-string result through `json.dumps`. -/
def search_in_book (ctx : Ctx) (query : String) (book_name : String) (size : Int)
    (op : Except String PyValue) : Ctx × Except String PyValue :=
  let ctx := ctx.log (LogEntry.called "search_in_book"
    ("query=" ++ argRepr query ++ ", book_name=" ++ argRepr book_name ++ ", size=" ++ toString size))
  match op with
  | Except.error e => (ctx, Except.error e)
  | Except.ok result =>
    let ctx := ctx.log (LogEntry.responseSize "search_in_book" (_payload_size result))
    (ctx, ensureString result)

/-- Embeds the tool wrapper `search_in_dictionaries` (tools.py lines 178-199);
the return statement coerces a non-string result through `json.dumps`. -/
def search_in_dictionaries (ctx : Ctx) (query : String)
    (op : Except String PyValue) : Ctx × Except String PyValue :=
  let ctx := ctx.log (LogEntry.called "search_in_dictionaries" ("query=" ++ argRepr query))
  match op with
  | Except.error e => (ctx, Except.error e)
  | Except.ok result =>
    let ctx := ctx.log (LogEntry.responseSize "search_in_dictionaries" (_payload_size result))
    (ctx, ensureString result)

/-- Embeds the tool wrapper `get_english_translations` (tools.py lines 205-219). -/
def get_english_translations (ctx : Ctx) (reference : String)
    (op : Except String PyValue) : Ctx × Except String PyValue :=
  let ctx := ctx.log (LogEntry.called "get_english_translations"
    ("reference=" ++ argRepr reference))
  match op with
  | Except.error e => (ctx, Except.error e)
  | Except.ok result =>
    let ctx := ctx.log (LogEntry.responseSize "get_english_translations" (_payload_size result))
    (ctx, Except.ok result)

/-- Embeds the tool wrapper `get_topic_details` (tools.py lines 228-249). -/
def get_topic_details (ctx : Ctx) (topic_slug : String) (with_links : Bool)
    (with_refs : Bool) (op : Except String PyValue) : Ctx × Except String PyValue :=
  let ctx := ctx.log (LogEntry.called "get_topic_details"
    ("topic_slug=" ++ argRepr topic_slug ++ ", with_links=" ++ boolRepr with_links ++
      ", with_refs=" ++ boolRepr with_refs))
  match op with
  | Except.error e => (ctx, Except.error e)
  | Except.ok result =>
    let ctx := ctx.log (LogEntry.responseSize "get_topic_details" (_payload_size result))
    (ctx, Except.ok result)

/-- Embeds the tool wrapper `clarify_name_argument` (tools.py lines 251-272). -/
def clarify_name_argument (ctx : Ctx) (name : String) (limit : Option Int)
    (type_filter : Option String) (op : Except String PyValue) :
    Ctx × Except String PyValue :=
  let ctx := ctx.log (LogEntry.called "clarify_name_argument"
    ("name=" ++ argRepr name ++ ", limit=" ++ optIntRepr limit ++
      ", type_filter=" ++ optStrRepr type_filter))
  match op with
  | Except.error e => (ctx, Except.error e)
  | Except.ok result =>
    let ctx := ctx.log (LogEntry.responseSize "clarify_name_argument" (_payload_size result))
    (ctx, Except.ok result)

/-- Embeds the tool wrapper `clarify_search_path_filter` (tools.py lines
274-289); the return statement coerces a non-string result through
`json.dumps`. -/
def clarify_search_path_filter (ctx : Ctx) (book_name : String)
    (op : Except String PyValue) : Ctx × Except String PyValue :=
  let ctx := ctx.log (LogEntry.called "clarify_search_path_filter"
    ("book_name=" ++ argRepr book_name))
  match op with
  | Except.error e => (ctx, Except.error e)
  | Except.ok result =>
    let ctx := ctx.log (LogEntry.responseSize "clarify_search_path_filter" (_payload_size result))
    (ctx, ensureString result)

/-- Embeds the tool wrapper `get_text_or_category_shape` (tools.py lines 292-306). -/
def get_text_or_category_shape (ctx : Ctx) (name : String)
    (op : Except String PyValue) : Ctx × Except String PyValue :=
  let ctx := ctx.log (LogEntry.called "get_text_or_category_shape"
    ("name=" ++ argRepr name))
  match op with
  | Except.error e => (ctx, Except.error e)
  | Except.ok result =>
    let ctx := ctx.log (LogEntry.responseSize "get_text_or_category_shape" (_payload_size result))
    (ctx, Except.ok result)

/-- Embeds the tool wrapper `get_text_catalogue_info` (tools.py lines 312-326). -/
def get_text_catalogue_info (ctx : Ctx) (title : String)
    (op : Except String PyValue) : Ctx × Except String PyValue :=
  let ctx := ctx.log (LogEntry.called "get_text_catalogue_info"
    ("title=" ++ argRepr title))
  match op with
  | Except.error e => (ctx, Except.error e)
  | Except.ok result =>
    let ctx := ctx.log (LogEntry.responseSize "get_text_catalogue_info" (_payload_size result))
    (ctx, Except.ok result)

/-- Embeds the tool wrapper `get_available_manuscripts` (tools.py lines 332-346). -/
def get_available_manuscripts (ctx : Ctx) (reference : String)
    (op : Except String PyValue) : Ctx × Except String PyValue :=
  let ctx := ctx.log (LogEntry.called "get_available_manuscripts"
    ("reference=" ++ argRepr reference))
  match op with
  | Except.error e => (ctx, Except.error e)
  | Except.ok result =>
    let ctx := ctx.log (LogEntry.responseSize "get_available_manuscripts" (_payload_size result))
    (ctx, Except.ok result)

/-- Embeds the tool wrapper `get_manuscript_image` (tools.py lines 348-367);
the return statement always re-encodes the result with `json.dumps`. -/
def get_manuscript_image (ctx : Ctx) (image_url : String)
    (manuscript_title : Option String) (op : Except String PyValue) :
    Ctx × Except String PyValue :=
  let ctx := ctx.log (LogEntry.called "get_manuscript_image"
    ("image_url=" ++ argRepr image_url ++ ", manuscript_title=" ++ optStrRepr manuscript_title))
  match op with
  | Except.error e => (ctx, Except.error e)
  | Except.ok result =>
    let ctx := ctx.log (LogEntry.responseSize "get_manuscript_image" (_payload_size result))
    (ctx, jsonDumpsOrRaise result)

/-- The names of the tools registered by `register_tools`, one constructor
per `@mcp.tool` function. -/
inductive ToolName where
  | get_text
  | text_search
  | get_current_calendar
  | english_semantic_search
  | get_links_between_texts
  | search_in_book
  | search_in_dictionaries
  | get_english_translations
  | get_topic_details
  | clarify_name_argument
  | clarify_search_path_filter
  | get_text_or_category_shape
  | get_text_catalogue_info
  | get_available_manuscripts
  | get_manuscript_image
deriving DecidableEq

/-- The registry contents in registration (source) order. -/
def registeredTools : List ToolName :=
  [ToolName.get_text, ToolName.text_search, ToolName.get_current_calendar,
   ToolName.english_semantic_search, ToolName.get_links_between_texts,
   ToolName.search_in_book, ToolName.search_in_dictionaries,
   ToolName.get_english_translations, ToolName.get_topic_details,
   ToolName.clarify_name_argument, ToolName.clarify_search_path_filter,
   ToolName.get_text_or_category_shape, ToolName.get_text_catalogue_info,
   ToolName.get_available_manuscripts, ToolName.get_manuscript_image]

/-- The tools whose return statement applies the
`result if isinstance(result, str) else json.dumps(result, ensure_ascii=False)`
coercion. -/
def coercingTools : List ToolName :=
  [ToolName.text_search, ToolName.search_in_book,
   ToolName.search_in_dictionaries, ToolName.clarify_search_path_filter]

/-- The tools whose return statement is `return result`, with no coercion. -/
def plainReturnTools : List ToolName :=
  [ToolName.get_text, ToolName.get_current_calendar,
   ToolName.english_semantic_search, ToolName.get_links_between_texts,
   ToolName.get_english_translations, ToolName.get_topic_details,
   ToolName.clarify_name_argument, ToolName.get_text_or_category_shape,
   ToolName.get_text_catalogue_info, ToolName.get_available_manuscripts]

/-- One invocation of a registered tool: dispatches to the embedded wrapper.
The non-`op` arguments are fixed because no wrapper lets the payload or the
control flow depend on them; `op` is the outcome of the awaited underlying
operation. -/
def invoke (t : ToolName) (ctx : Ctx) (op : Except String PyValue) :
    Ctx × Except String PyValue :=
  match t with
  | ToolName.get_text => get_text ctx "" Option.none op
  | ToolName.text_search => text_search ctx "" Option.none 10 op
  | ToolName.get_current_calendar => get_current_calendar ctx op
  | ToolName.english_semantic_search => english_semantic_search ctx "" Option.none op
  | ToolName.get_links_between_texts => get_links_between_texts ctx "" "0" op
  | ToolName.search_in_book => search_in_book ctx "" "" 10 op
  | ToolName.search_in_dictionaries => search_in_dictionaries ctx "" op
  | ToolName.get_english_translations => get_english_translations ctx "" op
  | ToolName.get_topic_details => get_topic_details ctx "" false false op
  | ToolName.clarify_name_argument => clarify_name_argument ctx "" Option.none Option.none op
  | ToolName.clarify_search_path_filter => clarify_search_path_filter ctx "" op
  | ToolName.get_text_or_category_shape => get_text_or_category_shape ctx "" op
  | ToolName.get_text_catalogue_info => get_text_catalogue_info ctx "" op
  | ToolName.get_available_manuscripts => get_available_manuscripts ctx "" op
  | ToolName.get_manuscript_image => get_manuscript_image ctx "" Option.none op

/-- The payload a tool hands to the transport when the underlying operation
returns `r` (the second component of a successful invocation). -/
def toolReturnPath (t : ToolName) (r : PyValue) : Except String PyValue :=
  (invoke t ⟨[]⟩ (Except.ok r)).2

/-- Whether a transport outcome is a returned string payload. -/
def isStrPayload : Except String PyValue → Bool
  | Except.ok (PyValue.str _) => true
  | _ => false

/-- Whether a log entry is the post-dispatch response-size entry. -/
def isResponseSizeEntry : LogEntry → Bool
  | LogEntry.responseSize _ _ => true
  | LogEntry.called _ _ => false

/-- How many post-dispatch response-size entries a context holds. -/
def responseSizeCount (c : Ctx) : Nat :=
  (c.logs.filter isResponseSizeEntry).length

/-- Outcome tag of one tool invocation, as used for the
`mcp_tool_calls_total` status label. -/
inductive Status where
  | success
  | error
deriving DecidableEq

/-- Modelled from the spec: the process-wide MetricsState of spec section 3 —
the `mcp_tool_calls_total` counter keyed by tool and status, the observation
counts of the `mcp_tool_duration_seconds` and `mcp_tool_payload_bytes`
histograms keyed by tool, and the `mcp_errors_total` counter keyed by tool
and error kind. `main.py` (lines 64-102) declares these metrics and hands
them to the tool layer through `set_metrics`, but the code that performs the
per-call updates is not part of the sources here; it is modelled from spec
section 4.2. -/
structure MetricsState where
  calls : ToolName → Status → Nat
  durationObs : ToolName → Nat
  payloadObs : ToolName → Nat
  errorsByKind : ToolName → String → Nat

/-- The zeroed MetricsState the process starts with. -/
def metricsInit : MetricsState :=
  ⟨fun _ _ => 0, fun _ => 0, fun _ => 0, fun _ _ => 0⟩

/-- Modelled from the spec: one metric-update step of the Instrumentation
Wrapper (spec section 4.2, step 4) — increment the call counter tagged with
the tool and its status, observe the duration and payload-size histograms
tagged with the tool, and on error increment the error counter tagged with
the tool and the error kind. -/
def recordToolCall (m : MetricsState) (t : ToolName) (st : Status)
    (errKind : Option String) : MetricsState :=
  { calls := fun t2 s2 => if t2 = t ∧ s2 = st then m.calls t2 s2 + 1 else m.calls t2 s2
    durationObs := fun t2 => if t2 = t then m.durationObs t2 + 1 else m.durationObs t2
    payloadObs := fun t2 => if t2 = t then m.payloadObs t2 + 1 else m.payloadObs t2
    errorsByKind := fun t2 k =>
      match errKind with
      | some kind => if t2 = t ∧ k = kind then m.errorsByKind t2 k + 1 else m.errorsByKind t2 k
      | Option.none => m.errorsByKind t2 k }

/-- A finished sequence of instrumented invocations: each event is the tool
called and the outcome status, folded into the MetricsState in order. The
error kind recorded for a failed call is the exception class name. -/
def runTrace : MetricsState → List (ToolName × Status) → MetricsState
  | m, [] => m
  | m, (t, st) :: rest =>
    runTrace
      (recordToolCall m t st
        (match st with | Status.error => some "Exception" | Status.success => Option.none))
      rest

/-- The names bound at top level of `sefaria_mcp/tools.py` after it loads:
the `typing` and `json` imports, the `fastmcp` imports, the aliased
`.logic` imports, and the single function definition `register_tools`. -/
def toolsModuleTopLevel : List String :=
  ["List", "Optional", "json", "FastMCP", "Context",
   "_get_text", "_search_texts", "_get_situational_info", "_knn_search",
   "_get_english_translations", "_get_links", "_get_name",
   "_get_text_or_category_shape", "_get_topics", "_get_available_manuscripts",
   "_search_in_book", "_search_in_dictionaries", "_get_search_path_filter",
   "_get_manuscript_image", "_get_index", "register_tools"]

/-- The names `main.py` line 10 imports from the tools module:
`from .tools import register_tools, set_metrics`. -/
def mainImportsFromTools : List String :=
  ["register_tools", "set_metrics"]

/-- Whether importing one name from the tools module resolves. -/
def importResolves (n : String) : Bool :=
  toolsModuleTopLevel.contains n

/-- Whether the import statement at `main.py` line 10 succeeds: every
imported name must be bound at top level of the tools module, else Python
raises ImportError and the gateway module fails to load. -/
def mainImportSucceeds : Bool :=
  mainImportsFromTools.all importResolves

/-- Observable effects of process startup, in order. -/
inductive StartupEvent where
  | metricsServerStarted (port : Nat)
  | warnedMetricsSkipped (port : Nat)
  | sseServeStarted (host : String) (port : Nat) (path : String)
deriving DecidableEq

/-- Embeds `prometheus_client.start_http_server`: raises OSError when the
port is already bound, succeeds otherwise. -/
def start_http_server (portBusy : Bool) (port : Nat) : Except String Nat :=
  if portBusy then Except.error "OSError: address already in use" else Except.ok port

/-- Embeds `start_metrics_server` (main.py lines 105-111): try to start the
scrape server on port 9090; an OSError is caught and logged as a warning
instead of propagating. -/
def start_metrics_server (portBusy : Bool) : List StartupEvent :=
  let metrics_port := 9090
  match start_http_server portBusy metrics_port with
  | Except.ok p => [StartupEvent.metricsServerStarted p]
  | Except.error _ => [StartupEvent.warnedMetricsSkipped metrics_port]

/-- Embeds the console entry point `main` (main.py lines 114-116; the Lean
name `main` is reserved, hence the suffix): best-effort metrics server
start, then serve the SSE session transport on 0.0.0.0:8088 at path /sse. -/
def main_entry (portBusy : Bool) : List StartupEvent :=
  start_metrics_server portBusy ++ [StartupEvent.sseServeStarted "0.0.0.0" 8088 "/sse"]

/-- A bare HTTP GET request to the gateway app; discovery routes look only at
the path, and no session is attached. -/
structure Request where
  path : String

/-- A starlette JSONResponse: status code (200 unless overridden) and JSON
body. -/
structure JSONResponse where
  status : Nat
  body : PyValue

/-- Embeds `PROTECTED_RESOURCE_DOC` (main.py lines 26-30). -/
def PROTECTED_RESOURCE_DOC : PyValue :=
  PyValue.dict
    [("resource", PyValue.str "https://devmcp.sefaria.org"),
     ("authorization_servers", PyValue.list [])]

/-- Embeds `protected_resource_endpoint` (main.py lines 33-35). -/
def protected_resource_endpoint (_request : Request) : JSONResponse :=
  ⟨200, PROTECTED_RESOURCE_DOC⟩

/-- Embeds `authorization_server_endpoint` (main.py lines 37-39). -/
def authorization_server_endpoint (_request : Request) : JSONResponse :=
  ⟨200, PyValue.dict []⟩

/-- Embeds `protected_resource_endpoint_sse` (main.py lines 42-44). -/
def protected_resource_endpoint_sse (_request : Request) : JSONResponse :=
  ⟨200, PROTECTED_RESOURCE_DOC⟩

/-- Embeds `authorization_server_endpoint_sse` (main.py lines 46-48). -/
def authorization_server_endpoint_sse (_request : Request) : JSONResponse :=
  ⟨200, PyValue.dict []⟩

/-- The GET routes registered with `mcp.custom_route`, in source order. -/
def wellKnownRoutes : List (String × (Request → JSONResponse)) :=
  [("/.well-known/oauth-protected-resource", protected_resource_endpoint),
   ("/.well-known/oauth-authorization-server", authorization_server_endpoint),
   ("/.well-known/oauth-protected-resource/sse", protected_resource_endpoint_sse),
   ("/.well-known/oauth-authorization-server/sse", authorization_server_endpoint_sse)]

/-- Dispatch of a GET request against the custom routes, threading an
arbitrary server state: the matched handler receives only the request, so
the state passes through untouched. -/
def dispatchGET {σ : Type} (st : σ) (req : Request) : Option JSONResponse × σ :=
  match wellKnownRoutes.find? (fun route => route.1 == req.path) with
  | some route => (some (route.2 req), st)
  | Option.none => (Option.none, st)

/-- The server state left after a sequence of GET requests. -/
def runGETs {σ : Type} (st : σ) : List Request → σ
  | [] => st
  | req :: rest => runGETs (dispatchGET st req).2 rest

lemma isStrPayload_ensureString (r : PyValue)
    (h : r.isStr = true ∨ (jsonDumps r).isSome = true) :
    isStrPayload (ensureString r) = true := by
  cases r
  case str s => rfl
  all_goals
    rcases h with h | h
    · simp [PyValue.isStr] at h
    · rcases Option.isSome_iff_exists.mp h with ⟨s, hs⟩
      simp [ensureString, hs, isStrPayload]

lemma isStrPayload_jsonDumpsOrRaise (r : PyValue)
    (h : (jsonDumps r).isSome = true) :
    isStrPayload (jsonDumpsOrRaise r) = true := by
  rcases Option.isSome_iff_exists.mp h with ⟨s, hs⟩
  simp [jsonDumpsOrRaise, hs, isStrPayload]

lemma ensureString_of_none (r : PyValue) (hs : r.isStr = false)
    (hj : jsonDumps r = Option.none) :
    ensureString r = Except.error typeErrorMsg := by
  cases r
  case str s => simp [PyValue.isStr] at hs
  case int n => simp [jsonDumps] at hj
  case bool b => simp [jsonDumps] at hj
  case none => simp [jsonDumps] at hj
  case bytes bs => rfl
  case obj r2 => rfl
  case list xs =>
    simp only [ensureString]
    rw [hj]
  case dict kvs =>
    simp only [ensureString]
    rw [hj]

lemma jsonDumpsOrRaise_of_none (r : PyValue) (hj : jsonDumps r = Option.none) :
    jsonDumpsOrRaise r = Except.error typeErrorMsg := by
  simp [jsonDumpsOrRaise, hj]

lemma payloadSize_json (v : PyValue) (s : String) (hb : v.isBytes = false)
    (hs : v.isStr = false) (hj : jsonDumps v = some s) :
    _payload_size v = s.utf8ByteSize := by
  cases v
  case bytes bs => simp [PyValue.isBytes] at hb
  case str s2 => simp [PyValue.isStr] at hs
  all_goals simp [_payload_size, hj]

lemma payloadSize_fallback (v : PyValue) (hb : v.isBytes = false)
    (hs : v.isStr = false) (hj : jsonDumps v = Option.none) :
    _payload_size v = (pyStr v).utf8ByteSize := by
  cases v
  case bytes bs => simp [PyValue.isBytes] at hb
  case str s2 => simp [PyValue.isStr] at hs
  case int n => simp [jsonDumps] at hj
  case bool b => simp [jsonDumps] at hj
  case none => simp [jsonDumps] at hj
  case obj r2 => rfl
  case list xs =>
    simp only [_payload_size]
    rw [hj]
  case dict kvs =>
    simp only [_payload_size]
    rw [hj]

lemma responseSizeCount_log_called (c : Ctx) (t a : String) :
    responseSizeCount (c.log (LogEntry.called t a)) = responseSizeCount c := by
  simp [responseSizeCount, Ctx.log, isResponseSizeEntry, List.filter_append]

lemma responseSizeCount_log_size (c : Ctx) (t : String) (n : Nat) :
    responseSizeCount (c.log (LogEntry.responseSize t n)) = responseSizeCount c + 1 := by
  simp [responseSizeCount, Ctx.log, isResponseSizeEntry, List.filter_append]

lemma dispatchGET_snd {σ : Type} (st : σ) (req : Request) :
    (dispatchGET st req).2 = st := by
  unfold dispatchGET
  cases wellKnownRoutes.find? (fun route => route.1 == req.path) <;> rfl

lemma runGETs_id {σ : Type} (prior : List Request) (st : σ) :
    runGETs st prior = st := by
  induction prior generalizing st with
  | nil => rfl
  | cons r rest ih => rw [runGETs, dispatchGET_snd, ih]

lemma recordToolCall_calls (m : MetricsState) (t1 : ToolName) (s1 : Status)
    (k : Option String) (t : ToolName) (s : Status) :
    (recordToolCall m t1 s1 k).calls t s =
      m.calls t s + (if t = t1 ∧ s = s1 then 1 else 0) := by
  simp only [recordToolCall]
  split <;> simp_all

lemma recordToolCall_durationObs (m : MetricsState) (t1 : ToolName) (s1 : Status)
    (k : Option String) (t : ToolName) :
    (recordToolCall m t1 s1 k).durationObs t =
      m.durationObs t + (if t = t1 then 1 else 0) := by
  simp only [recordToolCall]
  split <;> simp_all

lemma runTrace_calls (tr : List (ToolName × Status)) (m : MetricsState)
    (t : ToolName) (s : Status) :
    (runTrace m tr).calls t s = m.calls t s + tr.count (t, s) := by
  induction tr generalizing m with
  | nil => simp [runTrace]
  | cons e rest ih =>
    obtain ⟨t1, s1⟩ := e
    simp only [runTrace]
    rw [ih, recordToolCall_calls, List.count_cons]
    by_cases h : t = t1 ∧ s = s1
    · obtain ⟨h1, h2⟩ := h
      subst h1
      subst h2
      rw [if_pos ⟨rfl, rfl⟩, if_pos (beq_self_eq_true ((t, s)))]
      omega
    · have hne : ¬((t, s) = (t1, s1)) :=
        fun hh => h ⟨congrArg Prod.fst hh, congrArg Prod.snd hh⟩
      rw [if_neg h, if_neg (fun hh => hne (eq_of_beq hh).symm)]
      omega

lemma runTrace_durationObs (tr : List (ToolName × Status)) (m : MetricsState)
    (t : ToolName) :
    (runTrace m tr).durationObs t =
      m.durationObs t + (tr.count (t, Status.success) + tr.count (t, Status.error)) := by
  induction tr generalizing m with
  | nil => simp [runTrace]
  | cons e rest ih =>
    obtain ⟨t1, s1⟩ := e
    simp only [runTrace]
    rw [ih, recordToolCall_durationObs, List.count_cons, List.count_cons]
    by_cases h : t = t1
    · subst h
      cases s1
      · rw [if_pos rfl, if_pos (beq_self_eq_true ((t, Status.success))),
          if_neg (fun hh => Status.noConfusion (congrArg Prod.snd (eq_of_beq hh)))]
        omega
      · rw [if_pos rfl, if_pos (beq_self_eq_true ((t, Status.error))),
          if_neg (fun hh => Status.noConfusion (congrArg Prod.snd (eq_of_beq hh)))]
        omega
    · have h1 : ¬(((t1, s1) == (t, Status.success)) = true) :=
        fun hh => h (congrArg Prod.fst (eq_of_beq hh)).symm
      have h2 : ¬(((t1, s1) == (t, Status.error)) = true) :=
        fun hh => h (congrArg Prod.fst (eq_of_beq hh)).symm
      rw [if_neg h, if_neg h1, if_neg h2]
      omega

/-- Claim C3 (code bug): `main.py` line 10 imports `register_tools` and
`set_metrics` from the tools module, but only `register_tools` is bound at
top level of `tools.py`; `set_metrics` is not, so loading the gateway module
raises ImportError before serving begins, even though `main.py` line 102
calls `set_metrics(metrics_dict)`. -/
theorem C3_theorem :
    importResolves "register_tools" = true ∧
    importResolves "set_metrics" = false ∧
    mainImportSucceeds = false := by
  decide

/-- Claim C6 (confirmed): for every input value the payload-size computation
`_payload_size` returns a byte count (it is a total function, embedding
"never raises"): the raw byte length for `bytes`, the UTF-8 byte length for
`str`, the byte length of the non-ASCII-preserving JSON encoding when
`json.dumps` succeeds, and otherwise the byte length of the best-effort
`str()` conversion. -/
theorem C6_theorem :
    (∀ bs : List Nat, _payload_size (PyValue.bytes bs) = bs.length) ∧
    (∀ s : String, _payload_size (PyValue.str s) = s.utf8ByteSize) ∧
    (∀ (v : PyValue) (s : String), v.isBytes = false → v.isStr = false →
      jsonDumps v = some s → _payload_size v = s.utf8ByteSize) ∧
    (∀ v : PyValue, v.isBytes = false → v.isStr = false →
      jsonDumps v = Option.none → _payload_size v = (pyStr v).utf8ByteSize) :=
  ⟨fun _ => rfl, fun _ => rfl,
   fun v s hb hs hj => payloadSize_json v s hb hs hj,
   fun v hb hs hj => payloadSize_fallback v hb hs hj⟩

/-- Witness for C6 at concrete inputs: three raw bytes, a two-letter Hebrew
string (4 UTF-8 bytes), a serializable integer, and a non-serializable
object. -/
theorem C6_witness :
    _payload_size (PyValue.bytes [104, 101, 108]) = [104, 101, 108].length ∧
    _payload_size (PyValue.str "אב") = ("אב").utf8ByteSize ∧
    ((PyValue.int 42).isBytes = false ∧ (PyValue.int 42).isStr = false ∧
      jsonDumps (PyValue.int 42) = some "42" ∧
      _payload_size (PyValue.int 42) = ("42").utf8ByteSize) ∧
    ((PyValue.obj "XY").isBytes = false ∧ (PyValue.obj "XY").isStr = false ∧
      jsonDumps (PyValue.obj "XY") = Option.none ∧
      _payload_size (PyValue.obj "XY") = (pyStr (PyValue.obj "XY")).utf8ByteSize) :=
  ⟨C6_theorem.1 _, C6_theorem.2.1 _,
   ⟨rfl, rfl, rfl, C6_theorem.2.2.1 _ "42" rfl rfl rfl⟩,
   ⟨rfl, rfl, rfl, C6_theorem.2.2.2 _ rfl rfl rfl⟩⟩

/-- Claim C8 (confirmed): when the metrics port is already bound,
`start_http_server` raises OSError, `start_metrics_server` catches it and
logs a warning, and the entry point still proceeds to serve the SSE session
transport on 0.0.0.0:8088. -/
theorem C8_theorem :
    main_entry true =
      [StartupEvent.warnedMetricsSkipped 9090,
       StartupEvent.sseServeStarted "0.0.0.0" 8088 "/sse"] := rfl

/-- Claim C9 (confirmed): after any sequence of prior requests the server
state is unchanged, and a GET of each well-known discovery path (including
the /sse-suffixed variants) returns HTTP 200 with the fixed
PROTECTED_RESOURCE_DOC or the empty JSON object, again leaving the state
untouched; the dispatch consults no session. -/
theorem C9_theorem {σ : Type} (st : σ) (prior : List Request) :
    runGETs st prior = st ∧
    dispatchGET (runGETs st prior) ⟨"/.well-known/oauth-protected-resource"⟩ =
      (some ⟨200, PROTECTED_RESOURCE_DOC⟩, runGETs st prior) ∧
    dispatchGET (runGETs st prior) ⟨"/.well-known/oauth-protected-resource/sse"⟩ =
      (some ⟨200, PROTECTED_RESOURCE_DOC⟩, runGETs st prior) ∧
    dispatchGET (runGETs st prior) ⟨"/.well-known/oauth-authorization-server"⟩ =
      (some ⟨200, PyValue.dict []⟩, runGETs st prior) ∧
    dispatchGET (runGETs st prior) ⟨"/.well-known/oauth-authorization-server/sse"⟩ =
      (some ⟨200, PyValue.dict []⟩, runGETs st prior) :=
  ⟨runGETs_id prior st, rfl, rfl, rfl, rfl⟩

/-- Claim C2 (confirmed against the spec-modelled metrics update): after a
trace holding N successful and M failed invocations of tool t (in any
interleaving with other tools), the call counter tagged with t and success
is N, the one tagged with t and error is M, and the duration histogram for t
holds exactly N+M observations. -/
theorem C2_theorem (t : ToolName) (tr : List (ToolName × Status)) (N M : Nat)
    (hN : tr.count (t, Status.success) = N)
    (hM : tr.count (t, Status.error) = M) :
    (runTrace metricsInit tr).calls t Status.success = N ∧
    (runTrace metricsInit tr).calls t Status.error = M ∧
    (runTrace metricsInit tr).durationObs t = N + M := by
  subst hN
  subst hM
  refine ⟨?_, ?_, ?_⟩
  · rw [runTrace_calls]
    simp [metricsInit]
  · rw [runTrace_calls]
    simp [metricsInit]
  · rw [runTrace_durationObs]
    simp [metricsInit]

/-- Witness for C2: a concrete three-event trace for get_text (two
successes, one failure) interleaved with a text_search success. -/
theorem C2_witness :
    (runTrace metricsInit
      [(ToolName.get_text, Status.success), (ToolName.text_search, Status.success),
       (ToolName.get_text, Status.error), (ToolName.get_text, Status.success)]).calls
        ToolName.get_text Status.success = 2 ∧
    (runTrace metricsInit
      [(ToolName.get_text, Status.success), (ToolName.text_search, Status.success),
       (ToolName.get_text, Status.error), (ToolName.get_text, Status.success)]).calls
        ToolName.get_text Status.error = 1 ∧
    (runTrace metricsInit
      [(ToolName.get_text, Status.success), (ToolName.text_search, Status.success),
       (ToolName.get_text, Status.error), (ToolName.get_text, Status.success)]).durationObs
        ToolName.get_text = 2 + 1 :=
  C2_theorem ToolName.get_text
    [(ToolName.get_text, Status.success), (ToolName.text_search, Status.success),
     (ToolName.get_text, Status.error), (ToolName.get_text, Status.success)]
    2 1 (by decide) (by decide)

/-- Claim C1 (refuted as stated): get_text is a registered tool, yet when its
underlying operation yields a structured value the wrapper returns that
value unchanged — the payload handed to the transport is not a string. -/
theorem C1_counterexample :
    ToolName.get_text ∈ registeredTools ∧
    isStrPayload (toolReturnPath ToolName.get_text
      (PyValue.dict [("verses", PyValue.list [])])) = false :=
  ⟨by decide, rfl⟩

/-- Claim C1 (corrected): only the wrappers that coerce (text_search,
search_in_book, search_in_dictionaries, clarify_search_path_filter) and
get_manuscript_image guarantee a string payload, and only when the result is
a string or JSON-serializable; every other registered tool returns the
operation result unchanged, so its payload is a string only when the
operation already produced one. -/
theorem C1_theorem :
    (∀ t ∈ coercingTools, ∀ r : PyValue,
      r.isStr = true ∨ (jsonDumps r).isSome = true →
      isStrPayload (toolReturnPath t r) = true) ∧
    (∀ r : PyValue, (jsonDumps r).isSome = true →
      isStrPayload (toolReturnPath ToolName.get_manuscript_image r) = true) ∧
    (∀ t ∈ plainReturnTools, ∀ r : PyValue, toolReturnPath t r = Except.ok r) := by
  refine ⟨?_, ?_, ?_⟩
  · intro t ht r h
    fin_cases ht <;> exact isStrPayload_ensureString r h
  · intro r h
    exact isStrPayload_jsonDumpsOrRaise r h
  · intro t ht r
    fin_cases ht <;> rfl

/-- Witness for C1 at concrete inputs: a serializable dict through
text_search, a serializable list through get_manuscript_image, and a dict
passed through get_english_translations unchanged. -/
theorem C1_witness :
    ToolName.text_search ∈ coercingTools ∧
    isStrPayload (toolReturnPath ToolName.text_search
      (PyValue.dict [("total", PyValue.int 0)])) = true ∧
    isStrPayload (toolReturnPath ToolName.get_manuscript_image
      (PyValue.list [PyValue.str "page"])) = true ∧
    ToolName.get_english_translations ∈ plainReturnTools ∧
    toolReturnPath ToolName.get_english_translations (PyValue.dict []) =
      Except.ok (PyValue.dict []) :=
  ⟨by decide,
   C1_theorem.1 ToolName.text_search (by decide) _ (Or.inr (by decide)),
   C1_theorem.2.1 _ (by decide),
   by decide,
   C1_theorem.2.2 ToolName.get_english_translations (by decide) _⟩

/-- Claim C4 (refuted as stated): get_manuscript_image is registered, yet a
string result is re-encoded by json.dumps, so the returned payload is the
quoted JSON literal, not the original string. -/
theorem C4_counterexample :
    ToolName.get_manuscript_image ∈ registeredTools ∧
    toolReturnPath ToolName.get_manuscript_image (PyValue.str "done") =
      Except.ok (PyValue.str "\"done\"") ∧
    "\"done\"" ≠ "done" :=
  ⟨by decide, rfl, by decide⟩

/-- Claim C4 (corrected): for every registered tool except
get_manuscript_image, a string result is returned exactly unchanged;
get_manuscript_image re-encodes it as a JSON string literal. -/
theorem C4_theorem (t : ToolName) (_ht : t ∈ registeredTools)
    (hne : t ≠ ToolName.get_manuscript_image) (s : String) :
    toolReturnPath t (PyValue.str s) = Except.ok (PyValue.str s) := by
  cases t <;> first | rfl | exact absurd rfl hne

/-- Witness for C4: get_text returns the string "shalom" unchanged. -/
theorem C4_witness :
    ToolName.get_text ∈ registeredTools ∧
    toolReturnPath ToolName.get_text (PyValue.str "shalom") =
      Except.ok (PyValue.str "shalom") :=
  ⟨by decide, C4_theorem ToolName.get_text (by decide) (by decide) "shalom"⟩

/-- Claim C5 (refuted as stated): text_search is registered, and on a result
json.dumps cannot serialize the return statement raises the TypeError to the
caller instead of degrading to a best-effort string. -/
theorem C5_counterexample :
    ToolName.text_search ∈ registeredTools ∧
    jsonDumps (PyValue.obj "ElasticResponse") = Option.none ∧
    toolReturnPath ToolName.text_search (PyValue.obj "ElasticResponse") =
      Except.error typeErrorMsg :=
  ⟨by decide, rfl, rfl⟩

/-- Claim C5 (corrected): the best-effort string fallback on serialization
failure exists only inside the payload-size computation; the return path has
none, so on a non-serializable, non-string result every coercing tool and
get_manuscript_image raise the TypeError to the caller. -/
theorem C5_theorem (v : PyValue) (hs : v.isStr = false) (hb : v.isBytes = false)
    (hj : jsonDumps v = Option.none) :
    _payload_size v = (pyStr v).utf8ByteSize ∧
    (∀ t ∈ coercingTools, toolReturnPath t v = Except.error typeErrorMsg) ∧
    toolReturnPath ToolName.get_manuscript_image v = Except.error typeErrorMsg := by
  refine ⟨payloadSize_fallback v hb hs hj, ?_, ?_⟩
  · intro t ht
    fin_cases ht <;> exact ensureString_of_none v hs hj
  · exact jsonDumpsOrRaise_of_none v hj

/-- Witness for C5 at a concrete non-serializable object. -/
theorem C5_witness :
    (PyValue.obj "Unserializable").isStr = false ∧
    (PyValue.obj "Unserializable").isBytes = false ∧
    jsonDumps (PyValue.obj "Unserializable") = Option.none ∧
    _payload_size (PyValue.obj "Unserializable") =
      (pyStr (PyValue.obj "Unserializable")).utf8ByteSize ∧
    toolReturnPath ToolName.search_in_book (PyValue.obj "Unserializable") =
      Except.error typeErrorMsg ∧
    toolReturnPath ToolName.get_manuscript_image (PyValue.obj "Unserializable") =
      Except.error typeErrorMsg :=
  ⟨rfl, rfl, rfl,
   (C5_theorem (PyValue.obj "Unserializable") rfl rfl rfl).1,
   (C5_theorem (PyValue.obj "Unserializable") rfl rfl rfl).2.1
     ToolName.search_in_book (by decide),
   (C5_theorem (PyValue.obj "Unserializable") rfl rfl rfl).2.2⟩

/-- Claim C7 (refuted as stated): when the underlying operation of get_text
raises, the exception propagates, but the post-dispatch structured log entry
carrying the response size is not recorded — the logs hold only the
pre-dispatch entry. -/
theorem C7_counterexample :
    (get_text ⟨[]⟩ "Genesis 1:1" Option.none
      (Except.error "RuntimeError: upstream timeout")).2 =
      Except.error "RuntimeError: upstream timeout" ∧
    responseSizeCount (get_text ⟨[]⟩ "Genesis 1:1" Option.none
      (Except.error "RuntimeError: upstream timeout")).1 = 0 :=
  ⟨rfl, rfl⟩

/-- Claim C7 (corrected): for every tool, an exception from the underlying
operation propagates unchanged, but the post-dispatch response-size log
entry is recorded only on the success exit path; on the exception path no
post-dispatch accounting happens (the wrappers contain no timing or counter
updates at all). -/
theorem C7_theorem (t : ToolName) (ctx : Ctx) :
    (∀ e : String, (invoke t ctx (Except.error e)).2 = Except.error e ∧
      responseSizeCount (invoke t ctx (Except.error e)).1 = responseSizeCount ctx) ∧
    (∀ r : PyValue,
      responseSizeCount (invoke t ctx (Except.ok r)).1 = responseSizeCount ctx + 1) := by
  constructor
  · intro e
    refine ⟨by cases t <;> rfl, ?_⟩
    cases t <;>
      simp [invoke, get_text, text_search, get_current_calendar, english_semantic_search,
        get_links_between_texts, search_in_book, search_in_dictionaries,
        get_english_translations, get_topic_details, clarify_name_argument,
        clarify_search_path_filter, get_text_or_category_shape, get_text_catalogue_info,
        get_available_manuscripts, get_manuscript_image, responseSizeCount_log_called]
  · intro r
    cases t <;>
      simp [invoke, get_text, text_search, get_current_calendar, english_semantic_search,
        get_links_between_texts, search_in_book, search_in_dictionaries,
        get_english_translations, get_topic_details, clarify_name_argument,
        clarify_search_path_filter, get_text_or_category_shape, get_text_catalogue_info,
        get_available_manuscripts, get_manuscript_image,
        responseSizeCount_log_called, responseSizeCount_log_size]

/-- Claim C10 (confirmed): for every registered tool, when the underlying
operation returns the same value on two consecutive invocations, the
payloads handed to the transport are byte-identical — the second component
never depends on the accumulated logging state. -/
theorem C10_theorem (t : ToolName) (_ht : t ∈ registeredTools) (ctx : Ctx)
    (r : PyValue) :
    (invoke t ctx (Except.ok r)).2 =
      (invoke t ((invoke t ctx (Except.ok r)).1) (Except.ok r)).2 := by
  cases t <;> rfl

/-- Witness for C10: two consecutive get_text invocations on the same
string result. -/
theorem C10_witness :
    ToolName.get_text ∈ registeredTools ∧
    (invoke ToolName.get_text ⟨[]⟩ (Except.ok (PyValue.str "payload"))).2 =
      (invoke ToolName.get_text
        ((invoke ToolName.get_text ⟨[]⟩ (Except.ok (PyValue.str "payload"))).1)
        (Except.ok (PyValue.str "payload"))).2 :=
  ⟨by decide, C10_theorem ToolName.get_text (by decide) ⟨[]⟩ (PyValue.str "payload")⟩
